import Mathlib

/-!
Verification development for the steampy fork (aiosteampy package).

The definitions below are a shallow embedding of the Python sources:

* src/aiosteampy/login.py   — the login state machine (LoginMixin)
* src/aiosteampy/public.py  — inventory pagination and item-catalog
  resolution (SteamPublicMixin)
* src/aiosteampy/trade.py   — the trade-offer cursor loop and offer actions
  (TradeMixin)

JSON payloads are modelled by the inductive type JVal; Python exceptions
are modelled by the inductive type PyErr and functions that can raise
return Except PyErr.  Stateful methods take and return an explicit
ClientState.  Network traffic is external: every response a method would
read from the wire is a parameter of its embedding.
-/

set_option autoImplicit false
set_option maxRecDepth 8192

namespace Steampy

/-! ### JSON values and Python semantics helpers -/

/-- A JSON value as produced by response.json() in aiohttp. -/
inductive JVal where
  | null : JVal
  | jbool : Bool → JVal
  | jnum : Int → JVal
  | jstr : String → JVal
  | jarr : List JVal → JVal
  | jobj : List (String × JVal) → JVal

/-- Python exceptions that the embedded code can raise.  LoginError
subclasses ApiError in exceptions.py, so both count as the library's
authentication/api error; keyError, typeError, valueError and
overflowError model the corresponding Python builtins escaping uncaught. -/
inductive PyErr where
  | apiError : String → Option JVal → PyErr
  | loginError : String → Option JVal → PyErr
  | keyError : String → PyErr
  | typeError : String → PyErr
  | valueError : String → PyErr
  | overflowError : String → PyErr
  | attributeError : String → PyErr

/-- Whether the exception is the library's ApiError (or its subclass
LoginError), i.e. the error type exceptions.py documents for failed
steam web/api calls. -/
def PyErr.isApiError : PyErr → Bool
  | .apiError _ _ => true
  | .loginError _ _ => true
  | _ => false

/-- First binding of a key in a JSON object's field list (Python dicts
have unique keys; responses are modelled with the first binding
authoritative). -/
def jget : List (String × JVal) → String → Option JVal
  | [], _ => none
  | (k, v) :: rest, key => if k = key then some v else jget rest key

/-- Python dict.get with a default: the stored value if the key is
present (even a falsy one), the default otherwise. -/
def jgetD (fields : List (String × JVal)) (key : String) (dflt : JVal) : JVal :=
  (jget fields key).getD dflt

/-- Python truthiness of a JSON value. -/
def pyTruthy : JVal → Bool
  | .null => false
  | .jbool b => b
  | .jnum n => n != 0
  | .jstr s => s ≠ ""
  | .jarr xs => ¬ xs.isEmpty
  | .jobj fields => ¬ fields.isEmpty

/-- Python subscription v[key]: raises KeyError when the object lacks the
key and TypeError when the value is not a mapping. -/
def jsub : JVal → String → Except PyErr JVal
  | .jobj fields, key =>
    match jget fields key with
    | some v => .ok v
    | none => .error (.keyError key)
  | _, key => .error (.typeError ("value is not subscriptable by key " ++ key))

/-! ### Cookies (http.cookies.SimpleCookie / Morsel) -/

/-- A cookie morsel: the value plus its attribute dictionary (path,
domain, secure, ...).  A Python Morsel is a dict preloaded with all
reserved attribute keys, hence it is always truthy regardless of its
value; the embedding relies on that for the presence checks below. -/
structure Morsel where
  value : String
  attrs : List (String × String)
  deriving Repr, DecidableEq

/-- SimpleCookie: an ordered mapping from cookie names to morsels. -/
abbrev SimpleCookie := List (String × Morsel)

/-- First binding of a cookie name. -/
def cookieGet : SimpleCookie → String → Option Morsel
  | [], _ => none
  | (k, m) :: rest, key => if k = key then some m else cookieGet rest key

/-- Replace the first binding of a key in a string-attribute list, or
append the binding when absent (Python dict item assignment). -/
def attrSet : List (String × String) → String → String → List (String × String)
  | [], k, v => [(k, v)]
  | (k', v') :: rest, k, v =>
    if k' = k then (k, v) :: rest else (k', v') :: attrSet rest k v

/-- First binding of an attribute name. -/
def attrGet : List (String × String) → String → Option String
  | [], _ => none
  | (k, v) :: rest, key => if k = key then some v else attrGet rest key

/-- Morsel item assignment m[attr] = v (used for m["domain"] = url.host). -/
def morselSetAttr (m : Morsel) (a v : String) : Morsel :=
  { m with attrs := attrSet m.attrs a v }

/-! ### Number parsing, UTF-8, base64 and RSA (rsa.encrypt / b64encode)

The server supplies the RSA key material as hexadecimal strings and the
timestamp as a decimal string; login.py parses them with int(x, 16) and
int(x) and encrypts the password with rsa.encrypt (PKCS#1 v1.5) before
base64-encoding it.  These helpers embed exactly that pipeline.  The
random nonzero padding bytes drawn by rsa.encrypt are supplied as an
explicit stream argument. -/

/-- Value of one hexadecimal digit. -/
def hexDigitVal? (c : Char) : Option Nat :=
  if '0' ≤ c ∧ c ≤ '9' then some (c.toNat - '0'.toNat)
  else if 'a' ≤ c ∧ c ≤ 'f' then some (c.toNat - 'a'.toNat + 10)
  else if 'A' ≤ c ∧ c ≤ 'F' then some (c.toNat - 'A'.toNat + 10)
  else none

/-- Python int(s, 16) on a plain hexadecimal string (no sign, prefix or
separators — the shape the key endpoint returns). -/
def hexToNat? (s : String) : Option Nat :=
  if s.isEmpty then none
  else s.toList.foldl
    (fun acc c => acc.bind (fun a => (hexDigitVal? c).map (fun d => a * 16 + d)))
    (some 0)

/-- Value of one decimal digit. -/
def decDigitVal? (c : Char) : Option Nat :=
  if '0' ≤ c ∧ c ≤ '9' then some (c.toNat - '0'.toNat) else none

/-- Decimal digit-string value. -/
def decToNat? (s : List Char) : Option Nat :=
  if s.isEmpty then none
  else s.foldl
    (fun acc c => acc.bind (fun a => (decDigitVal? c).map (fun d => a * 10 + d)))
    (some 0)

/-- Python int(s) on a decimal string with an optional sign. -/
def decToInt? (s : String) : Option Int :=
  match s.toList with
  | '-' :: rest => (decToNat? rest).map (fun n => -(n : Int))
  | cs => (decToNat? cs).map (fun n => (n : Int))

/-- Python int(v, 16): accepts only a string. -/
def pyIntOfHex (v : JVal) : Except PyErr Nat :=
  match v with
  | .jstr s =>
    match hexToNat? s with
    | some n => .ok n
    | none => .error (.valueError ("invalid literal for int() with base 16: " ++ s))
  | _ => .error (.typeError "int() with base 16 needs a string argument")

/-- Python int(v) on a JSON value. -/
def pyInt (v : JVal) : Except PyErr Int :=
  match v with
  | .jstr s =>
    match decToInt? s with
    | some n => .ok n
    | none => .error (.valueError ("invalid literal for int() with base 10: " ++ s))
  | .jnum n => .ok n
  | .jbool b => .ok (if b then 1 else 0)
  | _ => .error (.typeError "int() argument must be a string or a number")

/-- UTF-8 encoding of one character (str.encode). -/
def utf8Char (c : Char) : List Nat :=
  let n := c.toNat
  if n < 128 then [n]
  else if n < 2048 then [192 + n / 64, 128 + n % 64]
  else if n < 65536 then [224 + n / 4096, 128 + n / 64 % 64, 128 + n % 64]
  else [240 + n / 262144, 128 + n / 4096 % 64, 128 + n / 64 % 64, 128 + n % 64]

/-- UTF-8 encoding of a string (password.encode("utf-8")). -/
def utf8Encode (s : String) : List Nat :=
  (s.toList.map utf8Char).flatten

/-- Floor of the base-2 logarithm by halving; the first argument only
bounds the recursion depth structurally (any value at least log2 n
gives the exact result, and the callers pass n itself). -/
def log2Fuel : Nat → Nat → Nat
  | 0, _ => 0
  | f + 1, n => if n ≤ 1 then 0 else log2Fuel f (n / 2) + 1

/-- rsa.common.byte_size: bytes needed for the integer, i.e. the
ceiling of bit_length / 8 (1 for zero). -/
def byteSize (n : Nat) : Nat :=
  if n = 0 then 1 else (log2Fuel n n + 8) / 8

/-- Big-endian bytes-to-integer (rsa.transform.bytes2int). -/
def os2ip (bs : List Nat) : Nat :=
  bs.foldl (fun acc b => acc * 256 + b) 0

/-- Big-endian integer-to-bytes over a fixed width (rsa.transform.int2bytes). -/
def i2osp (k : Nat) (x : Nat) : List Nat :=
  (List.range k).map (fun i => x / 256 ^ (k - 1 - i) % 256)

/-- rsa.pkcs1._pad_for_encryption: 00 02 [nonzero padding] 00 message,
padded to the key length; the padding bytes come from the supplied
stream. -/
def pkcs1Pad (msg : List Nat) (k : Nat) (pad : Nat → Nat) : List Nat :=
  0 :: 2 :: ((List.range (k - msg.length - 3)).map pad ++ 0 :: msg)

/-- rsa.encrypt: PKCS#1 v1.5 pad, then modular exponentiation with the
public key, serialized to the key length.  Raises OverflowError when the
message does not fit the key (needs keylength - 11 bytes at most). -/
def rsaEncrypt (msg : List Nat) (n e : Nat) (pad : Nat → Nat) : Except PyErr (List Nat) :=
  let k := byteSize n
  if k < msg.length + 11 then
    .error (.overflowError "message would be too long for the key size")
  else
    .ok (i2osp k (os2ip (pkcs1Pad msg k pad) ^ e % n))

/-- The base64 alphabet. -/
def b64Alphabet : List Char :=
  "ABCDEFGHIJKLMNOPQRSTUVWXYZabcdefghijklmnopqrstuvwxyz0123456789+/".toList

/-- Character of one 6-bit group. -/
def b64Char (i : Nat) : Char := b64Alphabet.getD i '?'

/-- base64.b64encode over a byte list, producing the padded text. -/
def b64encode : List Nat → String
  | [] => ""
  | [a] => String.mk [b64Char (a / 4), b64Char (a % 4 * 16), '=', '=']
  | [a, b] =>
    String.mk [b64Char (a / 4), b64Char (a % 4 * 16 + b / 16), b64Char (b % 16 * 4), '=']
  | a :: b :: c :: rest =>
    String.mk [b64Char (a / 4), b64Char (a % 4 * 16 + b / 16),
      b64Char (b % 16 * 4 + c / 64), b64Char (c % 64)] ++ b64encode rest

/-! ### LoginMixin._get_rsa_key and _begin_auth_session_with_credentials -/

/-- The except KeyError handler of _get_rsa_key: a KeyError while reading
the response becomes ApiError("Could not obtain rsa-key.", rj); every
other exception propagates. -/
def rsaKeyErrHandler (rj : List (String × JVal)) (e : PyErr) : PyErr :=
  match e with
  | .keyError _ => .apiError "Could not obtain rsa-key." (some (.jobj rj))
  | e' => e'

/-- LoginMixin._get_rsa_key: parse modulus and exponent as hexadecimal
integers and the timestamp as an integer from the key endpoint's JSON
response; returns (PublicKey(n, e), timestamp). -/
def getRsaKey (rj : List (String × JVal)) : Except PyErr ((Nat × Nat) × Int) :=
  match (do
    let respV ← jsub (.jobj rj) "response"
    let rsaMod ← pyIntOfHex (← jsub respV "publickey_mod")
    let rsaExp ← pyIntOfHex (← jsub respV "publickey_exp")
    let ts ← pyInt (← jsub respV "timestamp")
    pure ((rsaMod, rsaExp), ts) : Except PyErr ((Nat × Nat) × Int)) with
  | .ok v => .ok v
  | .error e => .error (rsaKeyErrHandler rj e)

/-- The data dict built by _begin_auth_session_with_credentials,
including the platform_data entries merged into it. -/
structure AuthPayload where
  account_name : String
  encrypted_password : String
  encryption_timestamp : Int
  remember_login : String
  persistence : String
  website_id : String
  device_friendly_name : String
  platform_type : Nat
  deriving Repr, DecidableEq

/-- LoginMixin._begin_auth_session_with_credentials, up to the outgoing
POST: fetch the RSA key, encrypt the password with it, base64 the
ciphertext and build the credential-submission payload. -/
def beginAuthSessionData (username password userAgent : String)
    (rsaResp : List (String × JVal)) (pad : Nat → Nat) : Except PyErr AuthPayload :=
  match getRsaKey rsaResp with
  | .error e => .error e
  | .ok ((n, e), ts) =>
    match rsaEncrypt (utf8Encode password) n e pad with
    | .error e2 => .error e2
    | .ok cipher =>
      .ok
        { account_name := username
          encrypted_password := b64encode cipher
          encryption_timestamp := ts
          remember_login := "true"
          persistence := "1"
          website_id := "Community"
          device_friendly_name := userAgent
          platform_type := 2 }

/-! ### Client state and the cookie jar -/

/-- One session.cookie_jar.update_cookies(c, response_url=url) call:
the url it was issued against and the single cookie it carried. -/
structure CookieOp where
  responseUrl : String
  key : String
  morsel : Morsel
  deriving Repr, DecidableEq

/-- The mutable client fields login.py touches: the logged-in flag, the
two tokens (None modelled as JVal.null) and the log of explicit
cookie-jar updates the embedded code performs. -/
structure ClientState where
  is_logged : Bool
  refresh_token : JVal
  access_token : JVal
  cookieJarOps : List CookieOp

/-- The fresh state LoginMixin.__init__ produces with no tokens given. -/
def initState : ClientState :=
  { is_logged := false, refresh_token := .null, access_token := .null, cookieJarOps := [] }

/-- The three main Steam domains of _set_web_cookies, with their hosts
(STEAM_URL.STORE, STEAM_URL.COMMUNITY, STEAM_URL.HELP). -/
def webUrlHostPairs : List (String × String) :=
  [("https://store.steampowered.com", "store.steampowered.com"),
   ("https://steamcommunity.com", "steamcommunity.com"),
   ("https://help.steampowered.com", "help.steampowered.com")]

/-- The sessionid guard at the top of _set_web_cookies: when no sessionid
morsel is present, cookie["sessionid"] = generate_session_id() adds one
whose value is the freshly generated identifier (SimpleCookie item
assignment builds a Morsel with default attributes).  The generated
identifier is passed in, the generator itself lives in utils.py. -/
def ensureSessionId (cookie : SimpleCookie) (generatedId : String) : SimpleCookie :=
  if (cookieGet cookie "sessionid").isNone then
    cookie ++ [("sessionid", { value := generatedId, attrs := [] })]
  else cookie

/-- LoginMixin._set_web_cookies: for every morsel of the (sessionid
ensured) cookie and every main Steam url, copy the morsel, overwrite its
domain attribute with the url's host and update the session cookie jar
against that url. -/
def setWebCookies (cookie : SimpleCookie) (generatedId : String) : List CookieOp :=
  (ensureSessionId cookie generatedId).flatMap (fun kv =>
    webUrlHostPairs.map (fun uh =>
      { responseUrl := uh.1, key := kv.1, morsel := morselSetAttr kv.2 "domain" uh.2 }))

/-! ### LoginMixin._perform_transfer and the transfer fan-out of login() -/

/-- What a transfer POST comes back with: its response cookies. -/
structure TransferResponse where
  cookies : SimpleCookie

/-- LoginMixin._perform_transfer: POST the instruction's params (plus the
steam id) to the instruction's url, then require a steamLoginSecure
cookie in the response; a Morsel is always truthy, so the guard
"not r.cookies.get(steamLoginSecure)" tests bare key presence. -/
def performTransfer (d : JVal) (_steamId : JVal) (resp : TransferResponse) :
    Except PyErr SimpleCookie :=
  match jsub d "url" with
  | .error e => .error e
  | .ok _url =>
    match jsub d "params" with
    | .error e => .error e
    | .ok (.jobj _) =>
      if (cookieGet resp.cookies "steamLoginSecure").isNone then
        .error (.apiError "No `steamLoginSecure` cookie in result." none)
      else
        .ok resp.cookies
    | .ok _ => .error (.typeError "argument after ** must be a mapping")

/-- The transfer fan-out of login(): one task per transfer_info entry,
each running _perform_transfer to completion; the i-th task reads the
i-th network response.  asyncio.wait(..., ALL_COMPLETED) lets every task
settle and never cancels a sibling, so the list holds one settled result
per instruction, errors included. -/
def loginTransferResults (steamId : JVal) (tresp : Nat → TransferResponse) :
    List JVal → Nat → List (Except PyErr SimpleCookie)
  | [], _ => []
  | d :: rest, i =>
    performTransfer d steamId (tresp i) :: loginTransferResults steamId tresp rest (i + 1)

/-! ### The remaining login() steps -/

/-- LoginMixin._update_auth_session_with_steam_guard_code: building the
data dict subscripts the begin response; a ClientResponseError from the
POST (modelled by the flag) becomes ApiError. -/
def updateAuthSessionWithGuardCode (sessionData : List (String × JVal))
    (postFails : Bool) : Except PyErr Unit := do
  let respV ← jsub (.jobj sessionData) "response"
  let _clientId ← jsub respV "client_id"
  let _steamid ← jsub respV "steamid"
  if postFails then .error (.apiError "Error updating steam guard code" none) else .ok ()

/-- LoginMixin._poll_auth_session_status: subscript the value of
rj.get("response", a default whose had_remote_interaction is True) by
the flag key, abort with ApiError when the flag is truthy, otherwise
assign the refresh and then the access token, re-subscripting
rj["response"] for each line as the source does (so a missing
access_token key leaves the refresh token already assigned). -/
def pollAuthSessionStatus (st : ClientState) (rj : List (String × JVal)) :
    Except (PyErr × ClientState) ClientState :=
  match jsub (jgetD rj "response" (.jobj [("had_remote_interaction", .jbool true)]))
      "had_remote_interaction" with
  | .error e => .error (e, st)
  | .ok flag =>
    if pyTruthy flag then
      .error (.apiError "Error polling auth session status." (some (.jobj rj)), st)
    else
      match jsub (.jobj rj) "response" with
      | .error e => .error (e, st)
      | .ok respV =>
        match jsub respV "refresh_token" with
        | .error e => .error (e, st)
        | .ok rt =>
          match jsub (.jobj rj) "response" with
          | .error e => .error (e, { st with refresh_token := rt })
          | .ok respV2 =>
            match jsub respV2 "access_token" with
            | .error e => .error (e, { st with refresh_token := rt })
            | .ok at0 => .ok { st with refresh_token := rt, access_token := at0 }

/-- LoginMixin._finalize_login, on its JSON response: an error field on a
truthy response or a missing/falsy transfer_info is a LoginError,
otherwise the response is returned as fin_data. -/
def finalizeLogin (rj : List (String × JVal)) : Except PyErr (List (String × JVal)) :=
  if ¬ rj.isEmpty ∧ pyTruthy (jgetD rj "error" .null) then
    .error (.loginError "Get error response when performing login finalization." (some (.jobj rj)))
  else if rj.isEmpty ∨ ¬ pyTruthy (jgetD rj "transfer_info" .null) then
    .error (.loginError "Malformed login response." (some (.jobj rj)))
  else .ok rj

/-- Everything login() consumes from outside: credentials and the wire
responses of each step (network traffic is external to the embedding). -/
structure LoginEnv where
  username : String
  password : String
  userAgent : String
  rsaResp : List (String × JVal)
  beginResp : List (String × JVal)
  guardPostFails : Bool
  pollResp : List (String × JVal)
  finalizeResp : List (String × JVal)
  pad : Nat → Nat
  transferResp : Nat → TransferResponse

/-- LoginMixin.login: run the credential, guard-code, polling and
finalization steps, fan the transfers out, wait for all of them with
asyncio.wait(..., return_when=ALL_COMPLETED) — which swallows the task
exceptions — and set _is_logged to True.  Errors carry the client state
as mutated up to the raise.  The returned list holds the settled
per-transfer results (the task objects after the wait). -/
def loginModel (env : LoginEnv) (st : ClientState) :
    Except (PyErr × ClientState) (ClientState × List (Except PyErr SimpleCookie)) :=
  match beginAuthSessionData env.username env.password env.userAgent env.rsaResp env.pad with
  | .error e => .error (e, st)
  | .ok _payload =>
  match updateAuthSessionWithGuardCode env.beginResp env.guardPostFails with
  | .error e => .error (e, st)
  | .ok _ =>
  match pollAuthSessionStatus st env.pollResp with
  | .error es => .error es
  | .ok st2 =>
  match finalizeLogin env.finalizeResp with
  | .error e => .error (e, st2)
  | .ok fin =>
  match jsub (.jobj fin) "transfer_info" with
  | .error e => .error (e, st2)
  | .ok (.jarr ds) =>
    match ds with
    | [] => .error (.valueError "Set of coroutines/Futures is empty.", st2)
    | _ :: _ =>
      match jsub (.jobj fin) "steamID" with
      | .error e => .error (e, st2)
      | .ok steamId =>
        .ok ({ st2 with is_logged := true }, loginTransferResults steamId env.transferResp ds 0)
  | .ok _ => .error (.typeError "transfer_info value is not a list", st2)

/-! ### SteamPublicMixin: inventory pages and the item-catalog resolution

The wire fields _parse_items actually reads are modelled already parsed
to their target types (the int(...) conversions of public.py applied);
class identifiers are the dictionary keys and keep one common type on
the asset and the description side, exactly as the raw JSON strings do. -/

/-- One entry of a page's assets list, restricted to the fields
public.py reads. -/
structure AssetData where
  assetid : Nat
  amount : Nat
  classid : Nat
  appid : Nat
  contextid : Nat
  deriving Repr, DecidableEq

/-- One entry of a page's descriptions list, restricted to the fields
the embedded resolution reads; the remaining display-metadata fields of
_create_item_description_kwargs are plain copies with no logic and are
not referenced by any theorem. -/
structure DescrData where
  classid : Nat
  instanceid : Nat
  appid : Nat
  name : String
  market_name : String
  market_hash_name : String
  commodity : Bool
  tradable : Bool
  marketable : Bool
  deriving Repr, DecidableEq

/-- What _find_game_for_asset returns: a Game enum member for a known
app id, or the (appid, int(contextid)) pair scavenged from a sibling
asset. -/
inductive GameRef where
  | knownGame : Nat → GameRef
  | appContext : Nat → Nat → GameRef
  deriving Repr, DecidableEq

/-- SteamPublicMixin._find_game_for_asset: try Game(appid) — membership
in the Game enum of constants.py is abstracted as the knownApps list —
and on ValueError scan the page's asset list for the first asset with
the same class id; falling off the loop returns Python None. -/
def findGameForAsset (knownApps : List Nat) (d : DescrData) (assets : List AssetData) :
    Option GameRef :=
  if d.appid ∈ knownApps then some (.knownGame d.appid)
  else
    match assets.find? (fun a => a.classid = d.classid) with
    | some a => some (.appContext a.appid a.contextid)
    | none => none

/-- The description record _create_item_description_kwargs builds (the
claim-relevant projection). -/
structure DescrRecord where
  class_id : Nat
  instance_id : Nat
  game : Option GameRef
  name : String
  market_name : String
  market_hash_name : String
  commodity : Bool
  tradable : Bool
  marketable : Bool
  deriving Repr, DecidableEq

/-- SteamPublicMixin._create_item_description_kwargs on the modelled
fields. -/
def createItemDescriptionKwargs (knownApps : List Nat) (d : DescrData)
    (assets : List AssetData) : DescrRecord :=
  { class_id := d.classid
    instance_id := d.instanceid
    game := findGameForAsset knownApps d assets
    name := d.name
    market_name := d.market_name
    market_hash_name := d.market_hash_name
    commodity := d.commodity
    tradable := d.tradable
    marketable := d.marketable }

/-- The item_descrs_map threaded through one inventory pass. -/
abbrev DescrMap := List (Nat × DescrRecord)

/-- First binding of a class id in the description map. -/
def mapLookup : DescrMap → Nat → Option DescrRecord
  | [], _ => none
  | (k, r) :: rest, key => if k = key then some r else mapLookup rest key

/-- The description loop of _parse_items: every description whose class
id is unseen is transformed and cached, in page order. -/
def updateDescrsMap (knownApps : List Nat) (assets : List AssetData) :
    List DescrData → DescrMap → DescrMap
  | [], m => m
  | d :: rest, m =>
    let m' :=
      if (mapLookup m d.classid).isNone then
        m ++ [(d.classid, createItemDescriptionKwargs knownApps d assets)]
      else m
    updateDescrsMap knownApps assets rest m'

/-- One resolved inventory item (EconItem with its joined description
record). -/
structure EconItem where
  asset_id : Nat
  owner_id : Nat
  amount : Nat
  descr : DescrRecord
  deriving Repr, DecidableEq

/-- The asset comprehension of _parse_items: join each asset to
item_descrs_map[classid] left to right; a class id absent from the map
raises the bare KeyError of the subscript. -/
def joinAssets (steamId : Nat) (m : DescrMap) : List AssetData → Except PyErr (List EconItem)
  | [] => .ok []
  | a :: rest =>
    match mapLookup m a.classid with
    | none => .error (.keyError (toString a.classid))
    | some r =>
      match joinAssets steamId m rest with
      | .error e => .error e
      | .ok items =>
        .ok ({ asset_id := a.assetid, owner_id := steamId, amount := a.amount, descr := r } :: items)

/-- One fetched inventory page: more_items and last_assetid are the
data.get("more_items", False) / data.get("last_assetid") values, plus
the assets and descriptions lists. -/
structure InvPage where
  more_items : Bool
  last_assetid : Option String
  assets : List AssetData
  descriptions : List DescrData

/-- SteamPublicMixin._parse_items on one page: cache the page's unseen
descriptions into the pass's map, then join every asset of the page. -/
def parseItems (knownApps : List Nat) (data : InvPage) (steamId : Nat) (m : DescrMap) :
    Except PyErr (DescrMap × List EconItem) :=
  let m' := updateDescrsMap knownApps data.assets data.descriptions m
  match joinAssets steamId m' data.assets with
  | .error e => .error e
  | .ok items => .ok (m', items)

/-- Outcome of one inventory pass: which start_assetid parameter each
page request carried (none when the params carried no such key), and
either the collected items, a propagated exception, or exhaustion of the
step budget (the Python loop still running after that many iterations). -/
inductive InvOutcome where
  | ok : List (Option String) → List EconItem → InvOutcome
  | errored : List (Option String) → PyErr → InvOutcome
  | outOfFuel : List (Option String) → InvOutcome

/-- The request log of an inventory outcome. -/
def InvOutcome.reqs : InvOutcome → List (Option String)
  | .ok reqs _ => reqs
  | .errored reqs _ => reqs
  | .outOfFuel reqs => reqs

/-- Whether the pass finished by the loop condition turning false. -/
def InvOutcome.isOk : InvOutcome → Bool
  | .ok _ _ => true
  | _ => false

/-- Python truthiness of the last_assetid variable (None and the empty
string are falsy). -/
def pyTruthyStrOpt : Option String → Bool
  | none => false
  | some s => s ≠ ""

/-- The while more_items loop of get_user_inventory: include
start_assetid in the params when the cursor is truthy, fetch the page,
read the continuation flag, advance the cursor only when the flag is
set, parse the page into the shared map and extend the item list; stop
exactly when the flag is falsy.  fuel bounds the number of iterations
the embedding unrolls; the i-th request reads page fetch(i). -/
def invLoop (knownApps : List Nat) (fetch : Nat → InvPage) (steamId : Nat) :
    Nat → Nat → Option String → DescrMap → List EconItem → List (Option String) → InvOutcome
  | 0, _, _, _, _, reqs => .outOfFuel reqs.reverse
  | fuel + 1, i, last, m, items, reqs =>
    let req := if pyTruthyStrOpt last then last else none
    let data := fetch i
    let more := data.more_items
    let last' := if more then data.last_assetid else last
    match parseItems knownApps data steamId m with
    | .error e => .errored (req :: reqs).reverse e
    | .ok (m', newItems) =>
      if more then
        invLoop knownApps fetch steamId fuel (i + 1) last' m' (items ++ newItems) (req :: reqs)
      else
        .ok (req :: reqs).reverse (items ++ newItems)

/-- SteamPublicMixin.get_user_inventory: run the pagination loop from an
empty map and no cursor, then apply the optional caller predicate to the
final item list only. -/
def getUserInventory (knownApps : List Nat) (fetch : Nat → InvPage) (steamId : Nat)
    (pred : Option (EconItem → Bool)) (fuel : Nat) : InvOutcome :=
  match invLoop knownApps fetch steamId fuel 0 none [] [] [] with
  | .ok reqs items =>
    .ok reqs (match pred with | some p => items.filter p | none => items)
  | out => out

/-! ### TradeMixin: the trade-offer cursor loop and decline_trade_offer -/

/-- Python value.get(key, default) on a JSON value: mappings look the
key up, anything else lacks the get attribute. -/
def jDictGet (v : JVal) (key : String) (dflt : JVal) : Except PyErr JVal :=
  match v with
  | .jobj fields => .ok (jgetD fields key dflt)
  | _ => .error (.attributeError ("object has no attribute get, key " ++ key))

/-- list.extend over a fetched JSON value: sequences append their
elements (the default empty tuple appends nothing); a non-sequence value
is not iterable. -/
def extendJ (acc : List JVal) (v : JVal) : Except PyErr (List JVal) :=
  match v with
  | .jarr l => .ok (acc ++ l)
  | _ => .error (.typeError "value is not iterable")

/-- Outcome of fetch_trade_offers: the cursor parameter each request
carried, and either the accumulated sent/received offer payloads, a
raised exception, or exhaustion of the unrolling budget. -/
inductive TradeOutcome where
  | ok : List JVal → List JVal → List JVal → TradeOutcome
  | errored : List JVal → PyErr → TradeOutcome
  | outOfFuel : List JVal → TradeOutcome

/-- The cursor log of a trade outcome. -/
def TradeOutcome.reqCursors : TradeOutcome → List JVal
  | .ok reqs _ _ => reqs
  | .errored reqs _ => reqs
  | .outOfFuel reqs => reqs

/-- Whether the loop finished through its break. -/
def TradeOutcome.isOk : TradeOutcome → Bool
  | .ok _ _ _ => true
  | _ => false

/-- The while True loop of TradeMixin.fetch_trade_offers: each request
carries the current params cursor; a falsy response field raises
ApiError; sent and received payloads are extended; the next cursor is
data.get("next_cursor", 0), echoed into the params, and a falsy cursor
breaks the loop. -/
def tradeLoop (fetch : Nat → List (String × JVal)) :
    Nat → Nat → JVal → List JVal → List JVal → List JVal → TradeOutcome
  | 0, _, _, _, _, reqs => .outOfFuel reqs.reverse
  | fuel + 1, i, cursor, sent, received, reqs =>
    let rj := fetch i
    let reqs' := cursor :: reqs
    if ¬ pyTruthy (jgetD rj "response" .null) then
      .errored reqs'.reverse (.apiError "Can't fetch trade offers." (some (.jobj rj)))
    else
      let data := jgetD rj "response" .null
      match jDictGet data "trade_offers_sent" (.jarr []) with
      | .error e => .errored reqs'.reverse e
      | .ok sv =>
        match extendJ sent sv with
        | .error e => .errored reqs'.reverse e
        | .ok sent' =>
          match jDictGet data "trade_offers_received" (.jarr []) with
          | .error e => .errored reqs'.reverse e
          | .ok rv =>
            match extendJ received rv with
            | .error e => .errored reqs'.reverse e
            | .ok received' =>
              match jDictGet data "next_cursor" (.jnum 0) with
              | .error e => .errored reqs'.reverse e
              | .ok c' =>
                if ¬ pyTruthy c' then .ok reqs'.reverse sent' received'
                else tradeLoop fetch fuel (i + 1) c' sent' received' reqs'

/-- TradeMixin.fetch_trade_offers: the params start with cursor 0. -/
def fetchTradeOffers (fetch : Nat → List (String × JVal)) (fuel : Nat) : TradeOutcome :=
  tradeLoop fetch fuel 0 (.jnum 0) [] [] []

/-- The fields of a cached TradeOffer object decline_trade_offer
reads. -/
structure TradeOffer where
  id : Int
  is_our_offer : Bool
  deriving Repr, DecidableEq

/-- TradeMixin._do_action_with_offer: POST to trade/offer_id/action and
return the whole JSON object of the response (the commented-out
tradeofferid extraction is not active). -/
def doActionWithOffer (_offerId : Int) (_action : String) (rj : List (String × JVal)) :
    List (String × JVal) :=
  rj

/-- Python inequality between a dict and an int: dict.__eq__ answers
NotImplemented for a non-dict operand, the reflected comparison does the
same, so != falls back to identity and is always True. -/
def pyDictNeInt (_resp : List (String × JVal)) (_n : Int) : Bool := true

/-- The shared tail of decline_trade_offer: compare the helper's JSON
object against the integer offer id and on success call
remove_trade_offer(offer_id, to_remove); the ok value records that
call's arguments. -/
def declineCore (offerId : Int) (toRemove : Option TradeOffer) (rj : List (String × JVal)) :
    Except PyErr (Int × Option TradeOffer) :=
  let respOfferId := doActionWithOffer offerId "decline" rj
  if respOfferId.isEmpty || pyDictNeInt respOfferId offerId then
    .error (.apiError ("Error while try to decline offer [" ++ toString offerId ++ "].") none)
  else .ok (offerId, toRemove)

/-- TradeMixin.decline_trade_offer over either an offer id or a cached
TradeOffer object. -/
def declineTradeOffer (offer : Int ⊕ TradeOffer) (rj : List (String × JVal)) :
    Except PyErr (Int × Option TradeOffer) :=
  match offer with
  | .inr o =>
    if o.is_our_offer then
      .error (.valueError "You can't decline your offer! Are you trying to cancel outgoing offer?")
    else declineCore o.id (some o) rj
  | .inl offerId => declineCore offerId none rj

/-! ### Concrete scenario data

Fixed wire data used to evaluate the embedded operations on specific
runs: a small RSA key response (12-byte modulus, large enough for the
one-byte test password), a begin/poll/finalize response set, transfer
responses with and without the secure cookie, inventory pages and trade
pages. -/

/-- Key endpoint response with a 12-byte modulus, exponent 3 and
timestamp 171234. -/
def rsaResp0 : List (String × JVal) :=
  [("response", .jobj [("publickey_mod", .jstr "800000000000000000000009"),
    ("publickey_exp", .jstr "3"), ("timestamp", .jstr "171234")])]

/-- Key endpoint response with an 18-byte modulus (fits "hunter2"). -/
def rsaRespW : List (String × JVal) :=
  [("response", .jobj [("publickey_mod", .jstr "800000000000000000000000000000000009"),
    ("publickey_exp", .jstr "3"), ("timestamp", .jstr "171234")])]

/-- The 18-byte test modulus. -/
def modW : Nat := (hexToNat? "800000000000000000000000000000000009").getD 0

/-- The ciphertext rsa.encrypt produces for "hunter2" under the test key
with constant padding bytes 170. -/
def cipherW : List Nat :=
  ((rsaEncrypt (utf8Encode "hunter2") modW 3 (fun _ => 170)).toOption).getD []

/-- Begin-auth response carrying the client and account identifiers. -/
def beginResp0 : List (String × JVal) :=
  [("response", .jobj [("client_id", .jstr "cid"), ("steamid", .jstr "765")])]

/-- Poll response with the remote-interaction flag cleared and both
tokens present. -/
def pollResp0 : List (String × JVal) :=
  [("response", .jobj [("had_remote_interaction", .jbool false),
    ("refresh_token", .jstr "RT"), ("access_token", .jstr "AT")])]

/-- Poll response with the remote-interaction flag set and both tokens
present anyway. -/
def pollRespRemote : List (String × JVal) :=
  [("response", .jobj [("had_remote_interaction", .jbool true),
    ("refresh_token", .jstr "RT"), ("access_token", .jstr "AT")])]

/-- Poll response whose response object lacks the remote-interaction
flag. -/
def pollRespNoFlag : List (String × JVal) :=
  [("response", .jobj [("refresh_token", .jstr "RT"), ("access_token", .jstr "AT")])]

/-- A transfer instruction for the store domain. -/
def td0 : JVal := .jobj [("url", .jstr "https://store.steampowered.com/login/settoken"),
  ("params", .jobj [("nonce", .jstr "n")])]

/-- A transfer instruction for the community domain. -/
def td1 : JVal := .jobj [("url", .jstr "https://steamcommunity.com/login/settoken"),
  ("params", .jobj [("nonce", .jstr "n")])]

/-- Finalize response with two transfer instructions and the steam id. -/
def finResp0 : List (String × JVal) :=
  [("transfer_info", .jarr [td0, td1]), ("steamID", .jstr "765")]

/-- A transfer response that does carry the secure-session cookie. -/
def transferRespGood : TransferResponse :=
  ⟨[("steamLoginSecure", { value := "tok", attrs := [("Path", "/")] })]⟩

/-- A transfer response with no steamLoginSecure cookie at all. -/
def transferRespBad : TransferResponse := ⟨[("browserid", { value := "b", attrs := [] })]⟩

/-- Login environment in which every step succeeds but the second
domain transfer comes back without the secure-session cookie. -/
def env0 : LoginEnv :=
  { username := "u", password := "p", userAgent := "ua", rsaResp := rsaResp0,
    beginResp := beginResp0, guardPostFails := false, pollResp := pollResp0,
    finalizeResp := finResp0, pad := fun _ => 170,
    transferResp := fun i => if i = 0 then transferRespGood else transferRespBad }

/-- Login environment in which every step succeeds and both transfers
return the secure-session cookie (and no sessionid cookie anywhere). -/
def env2 : LoginEnv :=
  { env0 with transferResp := fun _ => transferRespGood }

/-- Login environment whose poll response reports remote interaction. -/
def envRemote : LoginEnv :=
  { env0 with pollResp := pollRespRemote }

/-- The payload the begin step builds in env0. -/
def payload0 : AuthPayload :=
  match beginAuthSessionData "u" "p" "ua" rsaResp0 (fun _ => 170) with
  | .ok p => p
  | .error _ =>
    { account_name := "", encrypted_password := "", encryption_timestamp := 0,
      remember_login := "", persistence := "", website_id := "",
      device_friendly_name := "", platform_type := 0 }

/-- The logged-in flag of a finished login run. -/
def loggedFlagOf (r : Except (PyErr × ClientState) (ClientState × List (Except PyErr SimpleCookie))) :
    Option Bool :=
  match r with
  | .ok (st, _) => some st.is_logged
  | .error _ => none

/-- The settled transfer results of a finished login run. -/
def transferResultsOf
    (r : Except (PyErr × ClientState) (ClientState × List (Except PyErr SimpleCookie))) :
    List (Except PyErr SimpleCookie) :=
  match r with
  | .ok (_, rs) => rs
  | .error _ => []

/-- The cookie-jar update log of a finished login run. -/
def cookieOpsOf (r : Except (PyErr × ClientState) (ClientState × List (Except PyErr SimpleCookie))) :
    Option (List CookieOp) :=
  match r with
  | .ok (st, _) => some st.cookieJarOps
  | .error _ => none

/-- Whether a settled transfer result is the missing-secure-cookie
ApiError. -/
def isMissingCookieErr (r : Except PyErr SimpleCookie) : Bool :=
  match r with
  | .error (.apiError m none) => m = "No `steamLoginSecure` cookie in result."
  | _ => false

/-- Whether a settled transfer result succeeded with a steamLoginSecure
cookie in it. -/
def hasSecureCookie (r : Except PyErr SimpleCookie) : Bool :=
  match r with
  | .ok c => (cookieGet c "steamLoginSecure").isSome
  | _ => false

/-- The final client state of a login run (the error-carried state when
the run raised). -/
def finalStateOf (env : LoginEnv) (st : ClientState) : ClientState :=
  match loginModel env st with
  | .ok (st2, _) => st2
  | .error (_, st2) => st2

/-- An inventory asset and a description resolving it (class id 5001). -/
def a1 : AssetData := ⟨101, 1, 5001, 730, 2⟩

/-- The description for class id 5001. -/
def d1 : DescrData := ⟨5001, 0, 730, "n1", "m1", "mh1", true, true, true⟩

/-- A second asset (class id 5002). -/
def a2 : AssetData := ⟨102, 1, 5002, 730, 2⟩

/-- The description for class id 5002. -/
def d2 : DescrData := ⟨5002, 0, 730, "n2", "m2", "mh2", true, true, true⟩

/-- First page of the two-page scenario: continuation set, cursor 111. -/
def page1 : InvPage := ⟨true, some "111", [a1], [d1]⟩

/-- Second page of the two-page scenario: continuation cleared. -/
def page2 : InvPage := ⟨false, none, [a2], [d2]⟩

/-- A page whose only asset references a class id with no description
anywhere in the pass. -/
def pageX : InvPage := ⟨false, none, [a1], []⟩

/-- A page with the continuation flag set, a non-advancing cursor and no
content. -/
def constPage : InvPage := ⟨true, some "9", [], []⟩

/-- An empty page that still sets the continuation flag (short page that
is not final). -/
def emptyMorePage : InvPage := ⟨true, some "5", [], []⟩

/-- A page with items whose continuation flag is cleared (full page that
is final). -/
def fullFinalPage : InvPage := ⟨false, some "7", [a1, a2], [d1, d2]⟩

/-- A description whose app id (999) is no known game. -/
def dUnknown : DescrData := ⟨5001, 0, 999, "n", "m", "mh", true, true, true⟩

/-- The map and items _parse_items produces for page1 from an empty
pass state. -/
def page1Parsed : DescrMap × List EconItem :=
  ((parseItems [730] page1 1 []).toOption).getD ([], [])

/-- Trade-offer page whose response carries one sent offer and server
cursor 7. -/
def tr0 : List (String × JVal) :=
  [("response", .jobj [("trade_offers_sent", .jarr [.jstr "o1"]), ("next_cursor", .jnum 7)])]

/-- Trade-offer page whose response carries server cursor 0. -/
def tr1 : List (String × JVal) := [("response", .jobj [("next_cursor", .jnum 0)])]

/-- Trade-offer page whose response has no next_cursor key at all. -/
def tr2 : List (String × JVal) := [("response", .jobj [("trade_offers_received", .jarr [.jstr "o2"])])]

/-! ## Theorems -/

/-- Every error a joinAssets run raises is the KeyError of a class id
that is absent from the pass's description map. -/
theorem joinAssets_error_shape (steamId : Nat) (m : DescrMap) :
    ∀ (as : List AssetData) (e : PyErr), joinAssets steamId m as = .error e →
      ∃ k, e = .keyError (toString k) ∧ mapLookup m k = none := by
  intro as
  induction as with
  | nil => intro e h; simp [joinAssets] at h
  | cons a rest ih =>
    intro e h
    unfold joinAssets at h
    cases hl : mapLookup m a.classid with
    | none =>
      rw [hl] at h
      refine ⟨a.classid, ?_, hl⟩
      cases h
      rfl
    | some r =>
      rw [hl] at h
      cases hrec : joinAssets steamId m rest with
      | error e' =>
        rw [hrec] at h
        cases h
        exact ih _ hrec
      | ok items => rw [hrec] at h; cases h

/-- An asset whose class id misses the description map makes joinAssets
raise a KeyError for some absent class id. -/
theorem joinAssets_missing_gives_error (steamId : Nat) (m : DescrMap) :
    ∀ (as : List AssetData), (∃ a ∈ as, mapLookup m a.classid = none) →
      ∃ k, joinAssets steamId m as = .error (.keyError (toString k)) ∧ mapLookup m k = none := by
  intro as
  induction as with
  | nil =>
    rintro ⟨a, ha, -⟩
    cases ha
  | cons a rest ih =>
    rintro ⟨b, hb, hbl⟩
    cases hl : mapLookup m a.classid with
    | none =>
      refine ⟨a.classid, ?_, hl⟩
      unfold joinAssets
      rw [hl]
    | some r =>
      have hbr : b ∈ rest := by
        rcases List.mem_cons.mp hb with hba | hbr
        · exfalso; rw [hba] at hbl; rw [hbl] at hl; cases hl
        · exact hbr
      obtain ⟨k, hk, hkl⟩ := ih ⟨b, hbr, hbl⟩
      refine ⟨k, ?_, hkl⟩
      unfold joinAssets
      rw [hl, hk]

/-- C6: an asset referencing a class identifier with no matching
description in the current page or any prior page of the pass makes
_parse_items fail, and the failure is the bare KeyError of the dict
subscript, never the library's ApiError. -/
theorem parse_items_unresolved_key_is_keyerror (knownApps : List Nat) (page : InvPage)
    (steamId : Nat) (m : DescrMap) :
    ((∃ a ∈ page.assets,
        mapLookup (updateDescrsMap knownApps page.assets page.descriptions m) a.classid = none) →
      ∃ k : Nat, parseItems knownApps page steamId m = .error (.keyError (toString k)))
    ∧ (∀ e, parseItems knownApps page steamId m = .error e →
        PyErr.isApiError e = false ∧ ∃ k : Nat, e = .keyError (toString k)) := by
  constructor
  · intro hex
    obtain ⟨k, hk, -⟩ :=
      joinAssets_missing_gives_error steamId
        (updateDescrsMap knownApps page.assets page.descriptions m) page.assets hex
    refine ⟨k, ?_⟩
    simp only [parseItems]
    rw [hk]
  · intro e he
    simp only [parseItems] at he
    cases hj : joinAssets steamId (updateDescrsMap knownApps page.assets page.descriptions m)
        page.assets with
    | error e' =>
      rw [hj] at he
      injection he with h2
      subst h2
      obtain ⟨k, hk, -⟩ :=
        joinAssets_error_shape steamId
          (updateDescrsMap knownApps page.assets page.descriptions m) page.assets e' hj
      exact ⟨by rw [hk]; rfl, k, hk⟩
    | ok its => rw [hj] at he; cases he

/-- C6 witness: on the page whose only asset has class id 5001 and no
descriptions at all, the hypotheses hold and _parse_items raises a
KeyError. -/
theorem parse_items_unresolved_key_witness :
    (a1 ∈ pageX.assets ∧
      mapLookup (updateDescrsMap [730] pageX.assets pageX.descriptions []) a1.classid = none)
    ∧ ∃ k : Nat, parseItems [730] pageX 1 [] = .error (.keyError (toString k)) :=
  ⟨⟨by simp [pageX, a1], rfl⟩,
    (parse_items_unresolved_key_is_keyerror [730] pageX 1 []).1 ⟨a1, by simp [pageX], rfl⟩⟩

/-- C6 counterexample: at that page the raised error is KeyError "5001",
which is not the library's ApiError — the claimed ApiError does not
happen. -/
theorem parse_items_missing_descr_counterexample :
    parseItems [730] pageX 1 [] = .error (.keyError "5001")
    ∧ PyErr.isApiError (.keyError "5001") = false :=
  ⟨rfl, rfl⟩

/-- C9: when the description's app id names no known game, the fallback
resolution scans the page's companion asset list; with no matching class
id among the assets it yields Python None (no exception), and with a
first match it yields that asset's (appid, contextid) pair. -/
theorem find_game_unknown_app_fallback (knownApps : List Nat) (d : DescrData)
    (assets : List AssetData) (hunknown : d.appid ∉ knownApps) :
    ((∀ a ∈ assets, a.classid ≠ d.classid) → findGameForAsset knownApps d assets = none)
    ∧ (∀ a, assets.find? (fun x => x.classid = d.classid) = some a →
        findGameForAsset knownApps d assets = some (.appContext a.appid a.contextid)) := by
  constructor
  · intro hno
    unfold findGameForAsset
    rw [if_neg hunknown]
    have hfind : assets.find? (fun a => a.classid = d.classid) = none := by
      rw [List.find?_eq_none]
      intro x hx
      simp [hno x hx]
    rw [hfind]
  · intro a ha
    unfold findGameForAsset
    rw [if_neg hunknown, ha]

/-- C9 witness: app id 999 is unknown; with no matching sibling the
resolution is None, and with a matching sibling it is the sibling's
(appid, contextid). -/
theorem find_game_unknown_app_fallback_witness :
    findGameForAsset [730] dUnknown [] = none
    ∧ findGameForAsset [730] dUnknown [a1] = some (.appContext 730 2) :=
  ⟨(find_game_unknown_app_fallback [730] dUnknown [] (by decide)).1 (by simp),
   (find_game_unknown_app_fallback [730] dUnknown [a1] (by decide)).2 a1 rfl⟩

/-- C10: for every trade offer id and every JSON object the decline
endpoint returns, decline_trade_offer raises ApiError — the helper hands
back the whole JSON object, the dict-against-int comparison can never
hold, so the success path (cache removal and normal return) is
unreachable. -/
theorem decline_trade_offer_always_raises (offerId : Int) (rj : List (String × JVal)) :
    declineTradeOffer (.inl offerId) rj =
      .error (.apiError ("Error while try to decline offer [" ++ toString offerId ++ "].") none)
    ∧ ∀ res, declineTradeOffer (.inl offerId) rj ≠ .ok res := by
  have h1 : declineTradeOffer (.inl offerId) rj =
      .error (.apiError ("Error while try to decline offer [" ++ toString offerId ++ "].") none) := by
    unfold declineTradeOffer declineCore pyDictNeInt
    simp
  exact ⟨h1, fun res h => by rw [h1] at h; cases h⟩

/-- C10 witness: declining offer 123 against a typical decline response
raises the ApiError. -/
theorem decline_trade_offer_witness :
    declineTradeOffer (.inl 123) [("tradeofferid", .jstr "123")] =
      .error (.apiError ("Error while try to decline offer [" ++ toString (123 : Int) ++ "].")
        none) :=
  (decline_trade_offer_always_raises 123 [("tradeofferid", .jstr "123")]).1

/-- One unfolding step of the pagination loop. -/
theorem invLoop_step (knownApps : List Nat) (fetch : Nat → InvPage) (steamId : Nat)
    (f i : Nat) (last : Option String) (m : DescrMap) (items : List EconItem)
    (reqs : List (Option String)) :
    invLoop knownApps fetch steamId (f + 1) i last m items reqs =
      match parseItems knownApps (fetch i) steamId m with
      | .error e => .errored ((if pyTruthyStrOpt last then last else none) :: reqs).reverse e
      | .ok (m', newItems) =>
        if (fetch i).more_items then
          invLoop knownApps fetch steamId f (i + 1)
            (if (fetch i).more_items then (fetch i).last_assetid else last) m'
            (items ++ newItems) ((if pyTruthyStrOpt last then last else none) :: reqs)
        else
          .ok ((if pyTruthyStrOpt last then last else none) :: reqs).reverse
            (items ++ newItems) := rfl

/-- On the constant-cursor page the loop body never changes the cursor
or the continue flag, so from a truthy cursor every unit of budget is
spent on one more request carrying that same cursor. -/
theorem invLoop_const_cursor_diverges (knownApps : List Nat) (steamId : Nat) (cur : String)
    (hcur : cur ≠ "") :
    ∀ (fuel i : Nat) (m : DescrMap) (items : List EconItem) (reqs : List (Option String)),
      invLoop knownApps (fun _ => InvPage.mk true (some cur) [] []) steamId fuel i
          (some cur) m items reqs =
        .outOfFuel (reqs.reverse ++ List.replicate fuel (some cur)) := by
  intro fuel
  induction fuel with
  | zero =>
    intro i m items reqs
    simp [invLoop]
  | succ f ih =>
    intro i m items reqs
    have hparse : parseItems knownApps (InvPage.mk true (some cur) [] []) steamId m =
        .ok (m, []) := rfl
    rw [invLoop_step]
    simp only [hparse, pyTruthyStrOpt]
    simp [hcur, ih (i + 1) m items (some cur :: reqs), List.replicate_succ]

/-- C7 amended: the pagination loop has no seen-cursor guard at all — it
iterates exactly as long as more_items is true, so a fetch function that
always answers more_items true with the same non-empty last_assetid
makes get_user_inventory loop forever: whatever iteration budget it is
unrolled for, it exhausts it, issuing one request per unit of budget,
all of them (after the first) carrying the already-seen cursor. -/
theorem inventory_loop_never_terminates_on_constant_cursor (knownApps : List Nat)
    (steamId : Nat) (cur : String) (fuel : Nat) (hcur : cur ≠ "") :
    getUserInventory knownApps (fun _ => InvPage.mk true (some cur) [] []) steamId none
        (fuel + 1) =
      .outOfFuel (none :: List.replicate fuel (some cur)) := by
  have hparse : parseItems knownApps (InvPage.mk true (some cur) [] []) steamId [] =
      .ok ([], []) := rfl
  have hstep : invLoop knownApps (fun _ => InvPage.mk true (some cur) [] []) steamId
      (fuel + 1) 0 none [] [] [] =
      invLoop knownApps (fun _ => InvPage.mk true (some cur) [] []) steamId
        fuel 1 (some cur) [] [] [none] := by
    rw [invLoop_step]
    simp [hparse, pyTruthyStrOpt]
  unfold getUserInventory
  rw [hstep, invLoop_const_cursor_diverges knownApps steamId cur hcur fuel 1 [] [] [none]]
  simp

/-- C7 witness: with cursor "9" and budget 3 the run is still going
after three requests. -/
theorem inventory_loop_constant_cursor_witness :
    "9" ≠ "" ∧
      getUserInventory [730] (fun _ => InvPage.mk true (some "9") [] []) 1 none 3 =
        .outOfFuel (none :: List.replicate 2 (some "9")) :=
  ⟨by decide, inventory_loop_never_terminates_on_constant_cursor [730] 1 "9" 2 (by decide)⟩

/-- C7 counterexample: with a fetch function returning a constant truthy
cursor, a budget of four iterations is fully consumed — the repeated
cursor "9" is fetched three times, so the loop does not stop after at
most one repeated page. -/
theorem inventory_constant_cursor_counterexample :
    getUserInventory [730] (fun _ => constPage) 1 none 4 =
      .outOfFuel [none, some "9", some "9", some "9"]
    ∧ [none, some "9", some "9", some "9"].count (some "9") = 3 :=
  ⟨rfl, rfl⟩

/-- The request log of the inventory loop never shrinks. -/
theorem invLoop_reqs_mono (knownApps : List Nat) (fetch : Nat → InvPage) (steamId : Nat) :
    ∀ (fuel i : Nat) (last : Option String) (m : DescrMap) (items : List EconItem)
      (reqs : List (Option String)),
      reqs.length ≤ ((invLoop knownApps fetch steamId fuel i last m items reqs).reqs).length := by
  intro fuel
  induction fuel with
  | zero =>
    intro i last m items reqs
    simp [invLoop, InvOutcome.reqs]
  | succ f ih =>
    intro i last m items reqs
    simp only [invLoop]
    cases hp : parseItems knownApps (fetch i) steamId m with
    | error e => simp [InvOutcome.reqs]
    | ok pr =>
      cases hmore : (fetch i).more_items with
      | false => simp [InvOutcome.reqs]
      | true =>
        simp only [if_true]
        calc reqs.length
            ≤ ((if pyTruthyStrOpt last then last else none) :: reqs).length := by simp
          _ ≤ _ := ih (i + 1) (fetch i).last_assetid pr.1 (items ++ pr.2)
                ((if pyTruthyStrOpt last then last else none) :: reqs)

/-- With any positive budget the loop issues at least one request. -/
theorem invLoop_reqs_pos (knownApps : List Nat) (fetch : Nat → InvPage) (steamId : Nat)
    (fuel i : Nat) (last : Option String) (m : DescrMap) (items : List EconItem)
    (reqs : List (Option String)) (hfuel : 1 ≤ fuel) :
    reqs.length + 1 ≤ ((invLoop knownApps fetch steamId fuel i last m items reqs).reqs).length := by
  cases fuel with
  | zero => omega
  | succ f =>
    simp only [invLoop]
    cases hp : parseItems knownApps (fetch i) steamId m with
    | error e => simp [InvOutcome.reqs]
    | ok pr =>
      cases hmore : (fetch i).more_items with
      | false => simp [InvOutcome.reqs]
      | true =>
        simp only [if_true]
        have := invLoop_reqs_mono knownApps fetch steamId f (i + 1) (fetch i).last_assetid
          pr.1 (items ++ pr.2) ((if pyTruthyStrOpt last then last else none) :: reqs)
        simpa using this

/-- The predicate filter of get_user_inventory does not touch the
request log. -/
theorem getUserInventory_reqs (knownApps : List Nat) (fetch : Nat → InvPage) (steamId : Nat)
    (pred : Option (EconItem → Bool)) (fuel : Nat) :
    (getUserInventory knownApps fetch steamId pred fuel).reqs =
      (invLoop knownApps fetch steamId fuel 0 none [] [] []).reqs := by
  unfold getUserInventory
  cases invLoop knownApps fetch steamId fuel 0 none [] [] [] with
  | ok reqs items => simp [InvOutcome.reqs]
  | errored reqs e => rfl
  | outOfFuel reqs => rfl

/-- C8: the two-page inventory scenario issues exactly two fetches and
the second request's start_assetid echoes the first page's cursor "111";
an empty page with the flag set does not end the pass while a full page
with the flag cleared does; the trade-offer loop echoes the server
cursor into the next request's params and stops exactly on a zero or
absent next_cursor; and in general, for any well-parsing page, whether a
second fetch happens is equivalent to the page's more_items flag — the
item count plays no part. -/
theorem pagination_cursor_echo_and_flag_termination :
    ((getUserInventory [730] (fun i => if i = 0 then page1 else page2) 1 none 10).reqs =
        [none, some "111"]
      ∧ (getUserInventory [730] (fun i => if i = 0 then page1 else page2) 1 none 10).isOk = true)
    ∧ ((getUserInventory [730] (fun i => if i = 0 then emptyMorePage else page2) 1 none 10).reqs =
        [none, some "5"]
      ∧ (getUserInventory [730] (fun i => if i = 0 then emptyMorePage else page2) 1 none
          10).isOk = true)
    ∧ ((getUserInventory [730] (fun _ => fullFinalPage) 1 none 10).reqs = [none]
      ∧ (getUserInventory [730] (fun _ => fullFinalPage) 1 none 10).isOk = true)
    ∧ ((fetchTradeOffers (fun i => if i = 0 then tr0 else tr1) 10).reqCursors =
        [.jnum 0, .jnum 7]
      ∧ (fetchTradeOffers (fun i => if i = 0 then tr0 else tr1) 10).isOk = true)
    ∧ ((fetchTradeOffers (fun _ => tr2) 10).reqCursors = [.jnum 0]
      ∧ (fetchTradeOffers (fun _ => tr2) 10).isOk = true)
    ∧ (∀ (knownApps : List Nat) (steamId : Nat) (d : InvPage) (m1 : DescrMap)
        (its : List EconItem) (fuel : Nat),
        parseItems knownApps d steamId [] = .ok (m1, its) → 2 ≤ fuel →
        (2 ≤ ((getUserInventory knownApps (fun _ => d) steamId none fuel).reqs).length ↔
          d.more_items = true)) := by
  refine ⟨⟨rfl, rfl⟩, ⟨rfl, rfl⟩, ⟨rfl, rfl⟩, ⟨rfl, rfl⟩, ⟨rfl, rfl⟩, ?_⟩
  intro knownApps steamId d m1 its fuel hparse hfuel
  obtain ⟨f, rfl⟩ : ∃ f, fuel = f + 2 := ⟨fuel - 2, by omega⟩
  rw [getUserInventory_reqs, invLoop_step]
  cases hmore : d.more_items with
  | false =>
    norm_num [hparse, hmore, InvOutcome.reqs, pyTruthyStrOpt]
  | true =>
    have hpos := invLoop_reqs_pos knownApps (fun _ => d) steamId (f + 1) 1 d.last_assetid m1
      its [none] (by omega)
    simp only [List.length_cons, List.length_nil] at hpos
    simp [hparse, hmore, pyTruthyStrOpt, hpos]

/-- C8 witness: for the concrete first page (flag set), the general
equivalence instantiates to a second fetch happening. -/
theorem pagination_cursor_echo_witness :
    2 ≤ ((getUserInventory [730] (fun _ => page1) 1 none 2).reqs).length :=
  (pagination_cursor_echo_and_flag_termination.2.2.2.2.2 [730] 1 page1 page1Parsed.1
    page1Parsed.2 2 rfl (by norm_num)).mpr rfl

/-- C3: a per-domain transfer raises ApiError exactly when the response
carries no steamLoginSecure cookie and otherwise returns the response's
cookies; the fan-out settles one result per instruction — an earlier
failing transfer neither drops nor cancels any sibling. -/
theorem perform_transfer_cookie_check_and_fanout :
    (∀ (d steamId : JVal) (resp : TransferResponse) (u : JVal) (ps : List (String × JVal)),
      jsub d "url" = .ok u → jsub d "params" = .ok (.jobj ps) →
      ((performTransfer d steamId resp =
          .error (.apiError "No `steamLoginSecure` cookie in result." none) ↔
        cookieGet resp.cookies "steamLoginSecure" = none)
      ∧ ((cookieGet resp.cookies "steamLoginSecure").isSome →
          performTransfer d steamId resp = .ok resp.cookies)))
    ∧ (∀ (steamId : JVal) (tresp : Nat → TransferResponse) (ds : List JVal) (i : Nat),
        (loginTransferResults steamId tresp ds i).length = ds.length)
    ∧ (∀ (steamId : JVal) (tresp : Nat → TransferResponse) (ds : List JVal) (i j : Nat),
        (loginTransferResults steamId tresp ds i)[j]? =
          (ds[j]?).map (fun d => performTransfer d steamId (tresp (i + j)))) := by
  refine ⟨?_, ?_, ?_⟩
  · intro d steamId resp u ps hu hp
    have hred : performTransfer d steamId resp =
        (if (cookieGet resp.cookies "steamLoginSecure").isNone then
          .error (.apiError "No `steamLoginSecure` cookie in result." none)
        else .ok resp.cookies) := by
      unfold performTransfer
      rw [hu, hp]
    rw [hred]
    cases hc : cookieGet resp.cookies "steamLoginSecure" with
    | none => simp
    | some m => simp
  · intro steamId tresp ds
    induction ds with
    | nil => intro i; rfl
    | cons d rest ih => intro i; simp [loginTransferResults, ih (i + 1)]
  · intro steamId tresp ds
    induction ds with
    | nil => intro i j; simp [loginTransferResults]
    | cons d rest ih =>
      intro i j
      cases j with
      | zero => simp [loginTransferResults]
      | succ j0 =>
        have harith : i + (j0 + 1) = (i + 1) + j0 := by omega
        simp only [loginTransferResults, List.getElem?_cons_succ, harith]
        exact ih (i + 1) j0

/-- C3 witness: on the store transfer instruction, the cookieless
response raises the ApiError and the cookie-carrying response returns
its cookies. -/
theorem perform_transfer_witness :
    performTransfer td0 (.jstr "765") transferRespBad =
        .error (.apiError "No `steamLoginSecure` cookie in result." none)
    ∧ performTransfer td0 (.jstr "765") transferRespGood = .ok transferRespGood.cookies :=
  ⟨((perform_transfer_cookie_check_and_fanout.1 td0 (.jstr "765") transferRespBad
      (.jstr "https://store.steampowered.com/login/settoken") [("nonce", .jstr "n")]
      rfl rfl).1).mpr rfl,
   (perform_transfer_cookie_check_and_fanout.1 td0 (.jstr "765") transferRespGood
      (.jstr "https://store.steampowered.com/login/settoken") [("nonce", .jstr "n")]
      rfl rfl).2 rfl⟩

/-- C5: whatever RSA key response parses to modulus n, exponent e and
timestamp ts, the credential-submission payload carries the base64 of
the RSA encryption of the password under exactly (n, e), and its
encryption_timestamp field is ts unchanged. -/
theorem begin_auth_echoes_key_and_timestamp (username password userAgent : String)
    (rsaResp : List (String × JVal)) (pad : Nat → Nat) (n e : Nat) (ts : Int)
    (cipher : List Nat)
    (hkey : getRsaKey rsaResp = .ok ((n, e), ts))
    (henc : rsaEncrypt (utf8Encode password) n e pad = .ok cipher) :
    beginAuthSessionData username password userAgent rsaResp pad =
      .ok { account_name := username, encrypted_password := b64encode cipher,
            encryption_timestamp := ts, remember_login := "true", persistence := "1",
            website_id := "Community", device_friendly_name := userAgent,
            platform_type := 2 } := by
  unfold beginAuthSessionData
  rw [hkey]
  dsimp only
  rw [henc]

/-- C5 witness: the 18-byte test key response parses with timestamp
171234, "hunter2" encrypts under it, and the payload echoes both. -/
theorem begin_auth_echoes_witness :
    getRsaKey rsaRespW = .ok ((modW, 3), 171234)
    ∧ rsaEncrypt (utf8Encode "hunter2") modW 3 (fun _ => 170) = .ok cipherW
    ∧ beginAuthSessionData "bob" "hunter2" "ua" rsaRespW (fun _ => 170) =
        .ok { account_name := "bob", encrypted_password := b64encode cipherW,
              encryption_timestamp := 171234, remember_login := "true", persistence := "1",
              website_id := "Community", device_friendly_name := "ua", platform_type := 2 } :=
  ⟨rfl, rfl,
    begin_auth_echoes_key_and_timestamp "bob" "hunter2" "ua" rsaRespW (fun _ => 170)
      modW 3 171234 cipherW rfl rfl⟩

/-- C2 amended: a truthy had_remote_interaction flag, and likewise an
absent response object, abort the poll with ApiError and leave the
stored tokens untouched (the error carries the unchanged state), and
login then fails with that same error; but a present response object
that merely lacks the flag aborts with a bare KeyError instead. -/
theorem poll_remote_interaction_behavior :
    (∀ (st : ClientState) (rj : List (String × JVal)) (resp flag : JVal),
      jget rj "response" = some resp → jsub resp "had_remote_interaction" = .ok flag →
      pyTruthy flag = true →
      pollAuthSessionStatus st rj =
        .error (.apiError "Error polling auth session status." (some (.jobj rj)), st))
    ∧ (∀ (st : ClientState) (rj : List (String × JVal)), jget rj "response" = none →
      pollAuthSessionStatus st rj =
        .error (.apiError "Error polling auth session status." (some (.jobj rj)), st))
    ∧ (∀ (st : ClientState) (rj : List (String × JVal)) (fields : List (String × JVal)),
      jget rj "response" = some (.jobj fields) → jget fields "had_remote_interaction" = none →
      pollAuthSessionStatus st rj = .error (.keyError "had_remote_interaction", st))
    ∧ (∀ (env : LoginEnv) (st : ClientState) (payload : AuthPayload) (e : PyErr)
        (st2 : ClientState),
      beginAuthSessionData env.username env.password env.userAgent env.rsaResp env.pad =
        .ok payload →
      updateAuthSessionWithGuardCode env.beginResp env.guardPostFails = .ok () →
      pollAuthSessionStatus st env.pollResp = .error (e, st2) →
      loginModel env st = .error (e, st2)) := by
  refine ⟨?_, ?_, ?_, ?_⟩
  · intro st rj resp flag h1 h2 h3
    simp [pollAuthSessionStatus, jgetD, h1, h2, h3]
  · intro st rj h1
    simp [pollAuthSessionStatus, jgetD, h1, jsub, jget, pyTruthy]
  · intro st rj fields h1 h2
    have h3 : jsub (.jobj fields) "had_remote_interaction" =
        .error (.keyError "had_remote_interaction") := by
      simp [jsub, h2]
    simp [pollAuthSessionStatus, jgetD, h1, h3]
  · intro env st payload e st2 hb hg hp
    simp [loginModel, hb, hg, hp]

/-- C2 witness: with the flag set and both token payloads present, the
poll aborts with the ApiError carrying the untouched state, and login
fails with that same error. -/
theorem poll_remote_interaction_witness :
    pollAuthSessionStatus initState pollRespRemote =
        .error (.apiError "Error polling auth session status." (some (.jobj pollRespRemote)),
          initState)
    ∧ loginModel envRemote initState =
        .error (.apiError "Error polling auth session status." (some (.jobj pollRespRemote)),
          initState) :=
  ⟨poll_remote_interaction_behavior.1 initState pollRespRemote
      (.jobj [("had_remote_interaction", .jbool true), ("refresh_token", .jstr "RT"),
        ("access_token", .jstr "AT")]) (.jbool true) rfl rfl rfl,
   poll_remote_interaction_behavior.2.2.2 envRemote initState payload0
      (.apiError "Error polling auth session status." (some (.jobj pollRespRemote)))
      initState rfl rfl
      (poll_remote_interaction_behavior.1 initState pollRespRemote
        (.jobj [("had_remote_interaction", .jbool true), ("refresh_token", .jstr "RT"),
          ("access_token", .jstr "AT")]) (.jbool true) rfl rfl rfl)⟩

/-- C2 counterexample: a present response object lacking the flag makes
the poll raise a bare KeyError, not the authentication (Api) error the
claim asserts for that case. -/
theorem poll_flag_absent_counterexample :
    pollAuthSessionStatus initState pollRespNoFlag =
        .error (.keyError "had_remote_interaction", initState)
    ∧ PyErr.isApiError (.keyError "had_remote_interaction") = false :=
  ⟨rfl, rfl⟩

/-- C1: on a run where every login step succeeds but the second domain
transfer comes back without the steamLoginSecure cookie, login still
ends logged-in — asyncio.wait swallows the ApiError raised inside the
transfer task and _is_logged is assigned True unconditionally. -/
theorem login_marks_logged_in_despite_failed_transfer :
    loggedFlagOf (loginModel env0 initState) = some true
    ∧ (transferResultsOf (loginModel env0 initState)).map isMissingCookieErr = [false, true] :=
  ⟨rfl, rfl⟩

/-- Setting an attribute stores its value under that key. -/
theorem attrGet_attrSet_self (l : List (String × String)) (k v : String) :
    attrGet (attrSet l k v) k = some v := by
  induction l with
  | nil => simp [attrSet, attrGet]
  | cons kv rest ih =>
    obtain ⟨k0, v0⟩ := kv
    by_cases h : k0 = k
    · simp [attrSet, attrGet, h]
    · simp [attrSet, attrGet, h, ih]

/-- Setting an attribute leaves every other key's binding unchanged. -/
theorem attrGet_attrSet_other (l : List (String × String)) (k v a : String) (ha : a ≠ k) :
    attrGet (attrSet l k v) a = attrGet l a := by
  induction l with
  | nil => simp [attrSet, attrGet, Ne.symm ha]
  | cons kv rest ih =>
    obtain ⟨k0, v0⟩ := kv
    by_cases h : k0 = k
    · subst h
      simp [attrSet, attrGet, Ne.symm ha]
    · simp [attrSet, attrGet, h, ih]

/-- Appending a binding for an absent key makes it the key's
binding. -/
theorem cookieGet_append_of_none (c : SimpleCookie) (k : String) (m : Morsel)
    (h : cookieGet c k = none) : cookieGet (c ++ [(k, m)]) k = some m := by
  induction c with
  | nil => simp [cookieGet]
  | cons kv rest ih =>
    obtain ⟨k0, m0⟩ := kv
    by_cases hk : k0 = k
    · simp [cookieGet, hk] at h
    · simp [cookieGet, hk] at h ⊢
      exact ih h

/-- The poll step never touches the cookie jar: every state it can hand
back (on success or inside a raise) has the caller's update log. -/
theorem pollAuth_preserves_cookie_ops (st : ClientState) (rj : List (String × JVal)) :
    (∀ st2, pollAuthSessionStatus st rj = .ok st2 → st2.cookieJarOps = st.cookieJarOps)
    ∧ (∀ e st2, pollAuthSessionStatus st rj = .error (e, st2) →
        st2.cookieJarOps = st.cookieJarOps) := by
  cases h1 : jsub (jgetD rj "response" (.jobj [("had_remote_interaction", .jbool true)]))
      "had_remote_interaction" with
  | error e0 =>
    have hr : pollAuthSessionStatus st rj = .error (e0, st) := by
      simp [pollAuthSessionStatus, h1]
    rw [hr]
    refine ⟨fun st2 h => ?_, fun e st2 h => ?_⟩
    · cases h
    · injection h with h2
      have hst : st = st2 := congrArg Prod.snd h2
      rw [← hst]
  | ok flag =>
    by_cases hf : pyTruthy flag = true
    · have hr : pollAuthSessionStatus st rj =
          .error (.apiError "Error polling auth session status." (some (.jobj rj)), st) := by
        simp [pollAuthSessionStatus, h1, hf]
      rw [hr]
      refine ⟨fun st2 h => ?_, fun e st2 h => ?_⟩
      · cases h
      · injection h with h2
        have hst : st = st2 := congrArg Prod.snd h2
        rw [← hst]
    · cases h2 : jsub (.jobj rj) "response" with
      | error e0 =>
        have hr : pollAuthSessionStatus st rj = .error (e0, st) := by
          simp [pollAuthSessionStatus, h1, hf, h2]
        rw [hr]
        refine ⟨fun st2 h => ?_, fun e st2 h => ?_⟩
        · cases h
        · injection h with h3
          have hst : st = st2 := congrArg Prod.snd h3
          rw [← hst]
      | ok respV =>
        cases h3 : jsub respV "refresh_token" with
        | error e0 =>
          have hr : pollAuthSessionStatus st rj = .error (e0, st) := by
            simp [pollAuthSessionStatus, h1, hf, h2, h3]
          rw [hr]
          refine ⟨fun st2 h => ?_, fun e st2 h => ?_⟩
          · cases h
          · injection h with h4
            have hst : st = st2 := congrArg Prod.snd h4
            rw [← hst]
        | ok rt =>
          cases h5 : jsub respV "access_token" with
          | error e0 =>
            have hr : pollAuthSessionStatus st rj =
                .error (e0, { st with refresh_token := rt }) := by
              simp [pollAuthSessionStatus, h1, hf, h2, h3, h5]
            rw [hr]
            refine ⟨fun st2 h => ?_, fun e st2 h => ?_⟩
            · cases h
            · injection h with h4
              have hst : { st with refresh_token := rt } = st2 := congrArg Prod.snd h4
              rw [← hst]
          | ok at0 =>
            have hr : pollAuthSessionStatus st rj =
                .ok { st with refresh_token := rt, access_token := at0 } := by
              simp [pollAuthSessionStatus, h1, hf, h2, h3, h5]
            rw [hr]
            refine ⟨fun st2 h => ?_, fun e st2 h => ?_⟩
            · injection h with h4
              rw [← h4]
            · cases h

/-- A raised error whose carried state shares the caller's cookie-jar
log transfers that fact to whatever error state the run is matched
against. -/
theorem errorState_ops {a b : ClientState} (hab : a.cookieJarOps = b.cookieJarOps)
    {e0 : PyErr} {r : Except (PyErr × ClientState) (ClientState × List (Except PyErr SimpleCookie))}
    (hr : r = .error (e0, a)) :
    ∀ (e : PyErr) (st2 : ClientState), r = .error (e, st2) →
      st2.cookieJarOps = b.cookieJarOps := by
  intro e st2 h
  rw [hr] at h
  injection h with h2
  have hst : a = st2 := congrArg Prod.snd h2
  rw [← hst]
  exact hab

/-- login() performs no explicit cookie-jar update on any path: both the
returned state and any raise-carried state keep the caller's log. -/
theorem loginModel_ops_cases (env : LoginEnv) (st : ClientState) :
    (∀ st2 rs, loginModel env st = .ok (st2, rs) → st2.cookieJarOps = st.cookieJarOps)
    ∧ (∀ e st2, loginModel env st = .error (e, st2) → st2.cookieJarOps = st.cookieJarOps) := by
  cases hb : beginAuthSessionData env.username env.password env.userAgent env.rsaResp
      env.pad with
  | error e0 =>
    have hr : loginModel env st = .error (e0, st) := by simp [loginModel, hb]
    refine ⟨?_, errorState_ops rfl hr⟩
    intro st2 rs h
    rw [hr] at h
    cases h
  | ok payload =>
    cases hg : updateAuthSessionWithGuardCode env.beginResp env.guardPostFails with
    | error e0 =>
      have hr : loginModel env st = .error (e0, st) := by simp [loginModel, hb, hg]
      refine ⟨?_, errorState_ops rfl hr⟩
      intro st2 rs h
      rw [hr] at h
      cases h
    | ok u =>
      cases hp : pollAuthSessionStatus st env.pollResp with
      | error es =>
        obtain ⟨e0, stE⟩ := es
        have hstE := (pollAuth_preserves_cookie_ops st env.pollResp).2 e0 stE hp
        have hr : loginModel env st = .error (e0, stE) := by simp [loginModel, hb, hg, hp]
        refine ⟨?_, errorState_ops hstE hr⟩
        intro st2 rs h
        rw [hr] at h
        cases h
      | ok st2 =>
        have hops := (pollAuth_preserves_cookie_ops st env.pollResp).1 st2 hp
        cases hf : finalizeLogin env.finalizeResp with
        | error e0 =>
          have hr : loginModel env st = .error (e0, st2) := by simp [loginModel, hb, hg, hp, hf]
          refine ⟨?_, errorState_ops hops hr⟩
          intro st2' rs h
          rw [hr] at h
          cases h
        | ok fin =>
          cases ht : jsub (.jobj fin) "transfer_info" with
          | error e0 =>
            have hr : loginModel env st = .error (e0, st2) := by
              simp [loginModel, hb, hg, hp, hf, ht]
            refine ⟨?_, errorState_ops hops hr⟩
            intro st2' rs h
            rw [hr] at h
            cases h
          | ok tv =>
            cases tv with
            | jarr ds =>
              cases ds with
              | nil =>
                have hr : loginModel env st =
                    .error (.valueError "Set of coroutines/Futures is empty.", st2) := by
                  simp [loginModel, hb, hg, hp, hf, ht]
                refine ⟨?_, errorState_ops hops hr⟩
                intro st2' rs h
                rw [hr] at h
                cases h
              | cons d rest =>
                cases hs : jsub (.jobj fin) "steamID" with
                | error e0 =>
                  have hr : loginModel env st = .error (e0, st2) := by
                    simp [loginModel, hb, hg, hp, hf, ht, hs]
                  refine ⟨?_, errorState_ops hops hr⟩
                  intro st2' rs h
                  rw [hr] at h
                  cases h
                | ok sid =>
                  have hr : loginModel env st =
                      .ok ({ st2 with is_logged := true },
                        loginTransferResults sid env.transferResp (d :: rest) 0) := by
                    simp [loginModel, hb, hg, hp, hf, ht, hs]
                  refine ⟨?_, ?_⟩
                  · intro st2' rs h
                    rw [hr] at h
                    injection h with h2
                    have hfst : { st2 with is_logged := true } = st2' :=
                      congrArg Prod.fst h2
                    rw [← hfst]
                    exact hops
                  · intro e st2' h
                    rw [hr] at h
                    cases h
            | null =>
              have hr : loginModel env st =
                  .error (.typeError "transfer_info value is not a list", st2) := by
                simp [loginModel, hb, hg, hp, hf, ht]
              refine ⟨?_, errorState_ops hops hr⟩
              intro st2' rs h
              rw [hr] at h
              cases h
            | jbool b =>
              have hr : loginModel env st =
                  .error (.typeError "transfer_info value is not a list", st2) := by
                simp [loginModel, hb, hg, hp, hf, ht]
              refine ⟨?_, errorState_ops hops hr⟩
              intro st2' rs h
              rw [hr] at h
              cases h
            | jnum n =>
              have hr : loginModel env st =
                  .error (.typeError "transfer_info value is not a list", st2) := by
                simp [loginModel, hb, hg, hp, hf, ht]
              refine ⟨?_, errorState_ops hops hr⟩
              intro st2' rs h
              rw [hr] at h
              cases h
            | jstr s2 =>
              have hr : loginModel env st =
                  .error (.typeError "transfer_info value is not a list", st2) := by
                simp [loginModel, hb, hg, hp, hf, ht]
              refine ⟨?_, errorState_ops hops hr⟩
              intro st2' rs h
              rw [hr] at h
              cases h
            | jobj o =>
              have hr : loginModel env st =
                  .error (.typeError "transfer_info value is not a list", st2) := by
                simp [loginModel, hb, hg, hp, hf, ht]
              refine ⟨?_, errorState_ops hops hr⟩
              intro st2' rs h
              rw [hr] at h
              cases h

/-- login() performs no explicit cookie-jar update on any path: the
final client state (the returned one or the one carried by the raise)
keeps the caller's cookie-jar log. -/
theorem loginModel_no_cookie_ops (env : LoginEnv) (st : ClientState) :
    (finalStateOf env st).cookieJarOps = st.cookieJarOps := by
  unfold finalStateOf
  cases hr : loginModel env st with
  | ok pr =>
    obtain ⟨st2, rs⟩ := pr
    exact (loginModel_ops_cases env st).1 st2 rs hr
  | error pe =>
    obtain ⟨e, st2⟩ := pe
    exact (loginModel_ops_cases env st).2 e st2 hr

/-- C4 amended: _set_web_cookies replicates every cookie of the
sessionid-ensured set once per main Steam url with the domain attribute
rewritten to that url's host and every other attribute and the value
preserved, and it synthesizes a sessionid morsel from the generated
identifier exactly when none is present — but login() never invokes it:
no path of login() adds a cookie-jar update. -/
theorem set_web_cookies_replication_unused_by_login :
    (∀ (c : SimpleCookie) (gid : String) (op : CookieOp),
      op ∈ setWebCookies c gid ↔
        ∃ kv ∈ ensureSessionId c gid, ∃ uh ∈ webUrlHostPairs,
          op = ⟨uh.1, kv.1, morselSetAttr kv.2 "domain" uh.2⟩)
    ∧ (∀ (m : Morsel) (host : String),
        (morselSetAttr m "domain" host).value = m.value
        ∧ attrGet (morselSetAttr m "domain" host).attrs "domain" = some host
        ∧ ∀ a, a ≠ "domain" →
            attrGet (morselSetAttr m "domain" host).attrs a = attrGet m.attrs a)
    ∧ (∀ (c : SimpleCookie) (gid : String),
        (cookieGet c "sessionid" = none →
          cookieGet (ensureSessionId c gid) "sessionid" =
            some { value := gid, attrs := [] })
        ∧ ((cookieGet c "sessionid").isSome → ensureSessionId c gid = c))
    ∧ (∀ (env : LoginEnv) (st : ClientState),
        (finalStateOf env st).cookieJarOps = st.cookieJarOps) := by
  refine ⟨?_, ?_, ?_, fun env st => loginModel_no_cookie_ops env st⟩
  · intro c gid op
    unfold setWebCookies
    rw [List.mem_flatMap]
    constructor
    · rintro ⟨kv, hkv, hop⟩
      rw [List.mem_map] at hop
      obtain ⟨uh, huh, hop⟩ := hop
      exact ⟨kv, hkv, uh, huh, hop.symm⟩
    · rintro ⟨kv, hkv, uh, huh, hop⟩
      exact ⟨kv, hkv, List.mem_map.mpr ⟨uh, huh, hop.symm⟩⟩
  · intro m host
    exact ⟨rfl, attrGet_attrSet_self m.attrs "domain" host,
      fun a ha => attrGet_attrSet_other m.attrs "domain" host a ha⟩
  · intro c gid
    constructor
    · intro h
      unfold ensureSessionId
      rw [h]
      simpa using cookieGet_append_of_none c "sessionid" { value := gid, attrs := [] } h
    · intro h
      unfold ensureSessionId
      cases hc : cookieGet c "sessionid" with
      | none => rw [hc] at h; simp at h
      | some m0 => simp [hc]

/-- C4 witness: on a cookie set without a sessionid, the synthesized
sessionid morsel is present and gets replicated to the store host; and
the successful env2 login leaves the cookie-jar log untouched. -/
theorem set_web_cookies_witness :
    (⟨"https://store.steampowered.com", "sessionid",
        ⟨"g", [("domain", "store.steampowered.com")]⟩⟩ : CookieOp) ∈
      setWebCookies [("steamLoginSecure", ⟨"tok", [("Path", "/")]⟩)] "g"
    ∧ cookieGet (ensureSessionId [("steamLoginSecure", ⟨"tok", [("Path", "/")]⟩)] "g")
        "sessionid" = some ⟨"g", []⟩
    ∧ (finalStateOf env2 initState).cookieJarOps = initState.cookieJarOps :=
  ⟨(set_web_cookies_replication_unused_by_login.1
      [("steamLoginSecure", ⟨"tok", [("Path", "/")]⟩)] "g" _).mpr
      ⟨("sessionid", ⟨"g", []⟩), by decide,
       ("https://store.steampowered.com", "store.steampowered.com"), by decide, rfl⟩,
   (set_web_cookies_replication_unused_by_login.2.2.1
      [("steamLoginSecure", ⟨"tok", [("Path", "/")]⟩)] "g").1 rfl,
   set_web_cookies_replication_unused_by_login.2.2.2 env2 initState⟩

/-- C4 counterexample: the env2 run succeeds and both transfers return a
steamLoginSecure cookie, yet the session performed zero cookie-jar
updates — nothing was merged, replicated or synthesized on the login
path. -/
theorem login_success_merges_no_cookies_counterexample :
    cookieOpsOf (loginModel env2 initState) = some []
    ∧ loggedFlagOf (loginModel env2 initState) = some true
    ∧ (transferResultsOf (loginModel env2 initState)).map hasSecureCookie = [true, true] :=
  ⟨rfl, rfl, rfl⟩

end Steampy





